import Mathlib

/-!
Shallow embedding of the clo-helpcenter-chatbot-db administrative scripts:
the `get_users` aggregation pipeline of `chat_history.py`, the text helpers
of `tools/misc.py`, and the guarded webpage helpers of `tools/openai_helper.py`.
String manipulation is modelled over `List Char` so that every definition
evaluates inside the kernel; external services (the MongoDB date/timezone
rendering operator `$dateToString`, the tiktoken tokenizer, the OpenAI chat
completion call) are passed in as explicit function parameters.
-/

/-- Byte-order (codepoint) lexicographic strict comparison on character lists,
the order MongoDB uses to compare BSON strings in `$gte`/`$lte`. -/
def charListLt : List Char → List Char → Bool
  | [], [] => false
  | [], _ :: _ => true
  | _ :: _, [] => false
  | a :: as, b :: bs =>
    if a.toNat < b.toNat then true
    else if b.toNat < a.toNat then false
    else charListLt as bs

/-- Lexicographic strict order on strings (MongoDB string comparison). -/
def strLt (s t : String) : Bool := charListLt s.data t.data

/-- Lexicographic non-strict order on strings (MongoDB string comparison). -/
def strLe (s t : String) : Bool := strLt s t || s.data == t.data

/-- `datetime.strptime(s, "%Y-%m-%d %H:%M:%S").date()` for the canonical
zero-padded fixed-width form of the format, rendered back with `str(...)`
as the zero-padded `"YYYY-MM-DD"` date string; `none` models the
`ValueError` raised on a malformed input. -/
def strptimeDate (s : String) : Option String :=
  match s.data with
  | [y1, y2, y3, y4, h1, m1, m2, h2, d1, d2, sp, hh1, hh2, c1, mi1, mi2, c2, ss1, ss2] =>
    if (y1.isDigit && y2.isDigit && y3.isDigit && y4.isDigit &&
        m1.isDigit && m2.isDigit && d1.isDigit && d2.isDigit &&
        hh1.isDigit && hh2.isDigit && mi1.isDigit && mi2.isDigit &&
        ss1.isDigit && ss2.isDigit &&
        h1 == '-' && h2 == '-' && sp == ' ' && c1 == ':' && c2 == ':') then
      let mo := (m1.toNat - 48) * 10 + (m2.toNat - 48)
      let dd := (d1.toNat - 48) * 10 + (d2.toNat - 48)
      let hh := (hh1.toNat - 48) * 10 + (hh2.toNat - 48)
      let mi := (mi1.toNat - 48) * 10 + (mi2.toNat - 48)
      let ss := (ss1.toNat - 48) * 10 + (ss2.toNat - 48)
      if 1 ≤ mo && mo ≤ 12 && 1 ≤ dd && dd ≤ 31 && hh ≤ 23 && mi ≤ 59 && ss ≤ 59 then
        some ⟨[y1, y2, y3, y4, '-', m1, m2, '-', d1, d2]⟩
      else none
    else none
  | _ => none

/-- `tools/misc.py` `format_datetime`: parses both bounds with
`strptime(..., "%Y-%m-%d %H:%M:%S")`, keeps only the `.date()` part and
returns the pair as strings; `none` models the `ValueError` on bad input. -/
def format_datetime (start_date end_date : String) : Option (String × String) :=
  match strptimeDate start_date, strptimeDate end_date with
  | some s, some e => some (s, e)
  | _, _ => none

/-- The `$match` stage of `get_users`:
`{"created_at_localized": {"$gte": start_date_dt, "$lte": end_date_dt}}`,
a lexicographic string-range test on the localized timestamp. -/
def matchStage (start_date_dt end_date_dt created_at_localized : String) : Bool :=
  strLe start_date_dt created_at_localized && strLe created_at_localized end_date_dt

/-- The calendar date (first 10 characters) of a localized
`"YYYY-MM-DD HH:MM:SS"` timestamp string. -/
def localizedDate (s : String) : String := ⟨s.data.take 10⟩

/-- The `$switch` expression of `get_users` used for both
`created_at_localized` and `last_active_at_localized`: remaps the timezone
name `"Europe/Kyiv"` to `"Europe/Kiev"` and `"America/Ciudad_Juarez"` to
`"America/Denver"`; every other name falls through to the `default` branch
unchanged. -/
def timezoneSwitch (tz : String) : String :=
  if tz = "Europe/Kyiv" then "Europe/Kiev"
  else if tz = "America/Ciudad_Juarez" then "America/Denver"
  else tz

/-- Python `str.find(sub)` over character lists, scanning from position `i`:
lowest index at which `sub` occurs, or `-1` when absent. -/
def pyFindAux (sub : List Char) : List Char → Nat → Int
  | [], i => if sub.isPrefixOf ([] : List Char) then (i : Int) else -1
  | c :: t, i => if sub.isPrefixOf (c :: t) then (i : Int) else pyFindAux sub t (i + 1)

/-- Python `article.find(sub)`: lowest index of `sub` in `article`, else `-1`. -/
def pyFind (article sub : String) : Int := pyFindAux sub.data article.data 0

/-- One fuel-indexed pass of Python `str.replace(old, new)` for a non-empty
`old`: replaces non-overlapping occurrences left to right.  The fuel is the
length of the scanned list, which bounds the number of steps. -/
def pyReplaceAux (old new : List Char) : Nat → List Char → List Char
  | _, [] => []
  | 0, s => s
  | fuel + 1, c :: t =>
    if old.isPrefixOf (c :: t) then new ++ pyReplaceAux old new fuel (t.drop (old.length - 1))
    else c :: pyReplaceAux old new fuel t

/-- Python `article.replace(old, new)` for non-empty `old` (the only use in
`remove_miscellaneous_text` has a non-empty pattern). -/
def pyReplace (article old new : String) : String :=
  if old.data.isEmpty then article
  else ⟨pyReplaceAux old.data new.data article.data.length article.data⟩

/-- The whitespace characters Python `str.strip()` removes at either end. -/
def pyIsSpace (c : Char) : Bool :=
  c == ' ' || c == '\t' || c == '\n' || c == '\x0d' || c == '\x0b' || c == '\x0c'

/-- Python `article.strip()`: drop leading and trailing whitespace. -/
def pyStrip (article : String) : String :=
  ⟨((article.data.dropWhile pyIsSpace).reverse.dropWhile pyIsSpace).reverse⟩

/-- Python `article[i:]` for a non-negative index `i` (the only slice taken in
`remove_miscellaneous_text` starts at `answer_ending_index + 6 ≥ 6`). -/
def pySliceFrom (article : String) (i : Int) : String := ⟨article.data.drop i.toNat⟩

/-- The boilerplate phrases deleted by `remove_miscellaneous_text`. -/
def misc_list : List String := ["Go back to the List of Contents"]

/-- `tools/misc.py` `remove_miscellaneous_text`: deletes boilerplate phrases,
then, if both the `"Question"` and `"Answer"` markers occur, keeps only the
text after `answer_ending_index + 6`, and finally strips surrounding
whitespace. -/
def remove_miscellaneous_text (article : String) : String :=
  let article := misc_list.foldl (fun a misc => pyReplace a misc "") article
  let question_starting_index := pyFind article "Question"
  let answer_ending_index := pyFind article "Answer"
  let article :=
    if question_starting_index ≠ -1 ∧ answer_ending_index ≠ -1 then
      pySliceFrom article (answer_ending_index + 6)
    else article
  pyStrip article

/-- A feedback document as read by the `$lookup` on the feedback collection:
`_id` plus the two thumbs counters summed by the `$group` stage. -/
structure Feedback where
  _id : Nat
  thumbs_up : Int
  thumbs_down : Int
deriving DecidableEq, Repr

/-- The `citations` field of a chat record: either an array or a string. -/
inductive Citations
  | arr (items : List String)
  | str (s : String)
deriving DecidableEq, Repr

/-- A document as it enters the `$group` stage of `get_users`: the chat
record joined (inner) with its user, carrying the `$dateToString` renderings
computed by the store, and joined (left, already unwound with
`preserveNullAndEmptyArrays`) with at most one feedback document. -/
structure GroupedDoc where
  user_user_id : Nat
  user_name : String
  citations : Citations
  created_at_date : String
  created_at_localized : String
  last_active_at_localized : String
  timezone : String
  feedback : Option Feedback
deriving DecidableEq, Repr

/-- `$lookup` from the feedback collection on
`localField: "feedback_id", foreignField: "_id"`: the (possibly empty) list
of feedback documents whose `_id` equals the record's `feedback_id`; a
missing `feedback_id` (`none`) matches nothing. -/
def lookupFeedback (feedback_collection : List Feedback) (feedback_id : Option Nat) : List Feedback :=
  match feedback_id with
  | none => []
  | some fid => feedback_collection.filter (fun fb => fb._id == fid)

/-- `$unwind` with `preserveNullAndEmptyArrays: true` on the joined feedback
array: an empty join result keeps the document with the field absent
(`none`); otherwise one output document per joined feedback. -/
def unwindFeedback (joined : List Feedback) : List (Option Feedback) :=
  match joined with
  | [] => [none]
  | fs => fs.map some

/-- The summand contributed to `total_thumbs_up` by one grouped document:
`$sum: "$feedback.thumbs_up"` skips a missing path, so an absent feedback
contributes nothing. -/
def thumbsUpOf (d : GroupedDoc) : Int :=
  match d.feedback with
  | some fb => fb.thumbs_up
  | none => 0

/-- The summand contributed to `total_thumbs_down` by one grouped document. -/
def thumbsDownOf (d : GroupedDoc) : Int :=
  match d.feedback with
  | some fb => fb.thumbs_down
  | none => 0

/-- `total_thumbs_up` accumulator of the `$group` stage. -/
def sumThumbsUp (docs : List GroupedDoc) : Int := (docs.map thumbsUpOf).sum

/-- `total_thumbs_down` accumulator of the `$group` stage. -/
def sumThumbsDown (docs : List GroupedDoc) : Int := (docs.map thumbsDownOf).sum

/-- The `$cond` counted by `total_answers_no_citations`: 1 when `citations`
equals the empty array or the empty string, else 0. -/
def noCitations (c : Citations) : Bool :=
  c == Citations.arr [] || c == Citations.str ""

/-- `DateSet` accumulator: `$addToSet` of the `"%Y-%m-%d"` rendering of
`created_at`, modelled as the deduplicated list of those date strings. -/
def dateSet (docs : List GroupedDoc) : List String :=
  (docs.map GroupedDoc.created_at_date).dedup

/-- Output of the `$group` stage for one user's documents. -/
structure GroupOut where
  user_id : Nat
  name : String
  total_questions : Nat
  total_answers_no_citations : Nat
  total_thumbs_up : Int
  total_thumbs_down : Int
  date_set : List String
  created_at : String
  last_active_at : String
  timezone : String
deriving DecidableEq, Repr

/-- One group of the `$group` stage, accumulated over the documents sharing
the key `user.user_id = key`: `$first` takes the leading document's value,
`$sum: 1` counts, the conditional sum counts citation-free answers, the
thumbs sums skip absent feedback, and `$addToSet` collects distinct dates. -/
def groupRow (key : Nat) (docs : List GroupedDoc) : GroupOut :=
  { user_id := key
    name := (docs.head?.map GroupedDoc.user_name).getD ""
    total_questions := docs.length
    total_answers_no_citations := (docs.filter (fun d => noCitations d.citations)).length
    total_thumbs_up := sumThumbsUp docs
    total_thumbs_down := sumThumbsDown docs
    date_set := dateSet docs
    created_at := (docs.head?.map GroupedDoc.created_at_localized).getD ""
    last_active_at := (docs.head?.map GroupedDoc.last_active_at_localized).getD ""
    timezone := (docs.head?.map GroupedDoc.timezone).getD "" }

/-- The `$group` stage: partition the incoming documents by `user.user_id`
(one group per distinct key, keys in first-appearance order) and accumulate
each group with `groupRow`. -/
def groupStage (docs : List GroupedDoc) : List GroupOut :=
  ((docs.map GroupedDoc.user_user_id).dedup).map
    (fun k => groupRow k (docs.filter (fun d => d.user_user_id == k)))

/-- A row of the final `$project` stage: `_id` dropped, `user_id` recovered
from the grouping key, `total_visits` derived from the date set. -/
structure Row where
  user_id : Nat
  name : String
  total_questions : Nat
  total_answers_no_citations : Nat
  total_thumbs_up : Int
  total_thumbs_down : Int
  total_visits : Nat
  timezone : String
deriving DecidableEq, Repr

/-- The `$project` stage applied to one group: `total_visits` is
`$cond: if $size(DateSet) >= 1 then $size(DateSet) else 0`. -/
def projectRow (g : GroupOut) : Row :=
  { user_id := g.user_id
    name := g.name
    total_questions := g.total_questions
    total_answers_no_citations := g.total_answers_no_citations
    total_thumbs_up := g.total_thumbs_up
    total_thumbs_down := g.total_thumbs_down
    total_visits := if g.date_set.length ≥ 1 then g.date_set.length else 0
    timezone := g.timezone }

/-- The `$project` stage over all groups. -/
def projectStage (gs : List GroupOut) : List Row := gs.map projectRow

/-- Python `str.lower()`, applied by `get_users` to the requested sort field. -/
def pyLower (s : String) : String := ⟨s.data.map Char.toLower⟩

/-- `sort_direction = 1 if order_by == "ASC" else -1` in `get_users`. -/
def sortDirection (order_by : String) : Int :=
  if order_by = "ASC" then 1 else -1

/-- A BSON value a projected row can hold under a dynamic field name:
absent (unknown field), a number, or a string. -/
inductive BVal
  | missing
  | num (n : Int)
  | str (s : String)
deriving DecidableEq, Repr

/-- Dynamic field access on a projected row, as `$sort` performs on the
field name `sort_by.lower()`; an unrecognized name reads as missing. -/
def fieldVal (field : String) (r : Row) : BVal :=
  if field = "user_id" then BVal.num r.user_id
  else if field = "name" then BVal.str r.name
  else if field = "total_questions" then BVal.num r.total_questions
  else if field = "total_answers_no_citations" then BVal.num r.total_answers_no_citations
  else if field = "total_thumbs_up" then BVal.num r.total_thumbs_up
  else if field = "total_thumbs_down" then BVal.num r.total_thumbs_down
  else if field = "total_visits" then BVal.num r.total_visits
  else if field = "timezone" then BVal.str r.timezone
  else BVal.missing

/-- The BSON comparison order used by `$sort`: missing values sort before
numbers, numbers before strings, strings lexicographically. -/
def bvalLe : BVal → BVal → Bool
  | BVal.missing, _ => true
  | BVal.num _, BVal.missing => false
  | BVal.num a, BVal.num b => a ≤ b
  | BVal.num _, BVal.str _ => true
  | BVal.str _, BVal.missing => false
  | BVal.str _, BVal.num _ => false
  | BVal.str a, BVal.str b => strLe a b

/-- Row comparison for `{"$sort": {sort_by.lower(): sort_direction}}`:
ascending (`1`) compares the field values directly, any other direction
(`-1`) reverses the comparison. -/
def rowLe (field : String) (direction : Int) (a b : Row) : Bool :=
  if direction = 1 then bvalLe (fieldVal field a) (fieldVal field b)
  else bvalLe (fieldVal field b) (fieldVal field a)

/-- The `paginatedResults` facet branch: the single `$sort` stage (no
`$limit`/`$skip`), modelled as a sort of the projected rows. -/
def paginatedStage (sort_by : String) (order_by : String) (rows : List Row) : List Row :=
  List.insertionSort (fun a b => rowLe (pyLower sort_by) (sortDirection order_by) a b = true) rows

/-- The `totalCount` facet branch `[{"$count": "user_id"}]`: `$count` emits
no document on empty input, otherwise a single count document. -/
def countStage (rows : List Row) : List Nat :=
  match rows with
  | [] => []
  | _ => [rows.length]

/-- The `$facet` stage: both branches consume the same projected rows. -/
def facetStage (sort_by : String) (order_by : String) (rows : List Row) : List Row × List Nat :=
  (paginatedStage sort_by order_by rows, countStage rows)

/-- Unpacking of the facet result in `get_users`: when the `totalCount`
list has zero entries the function returns `{"items": [], "total_count": 0}`
without ever indexing `totalCount[0]`; otherwise the page and the leading
count document. -/
def unpackUsers (facetResult : List Row × List Nat) : List Row × Nat :=
  match facetResult.2 with
  | [] => ([], 0)
  | c :: _ => (facetResult.1, c)

/-- The grouped, projected rows of the pipeline for a given document set. -/
def pipelineRows (docs : List GroupedDoc) : List Row :=
  projectStage (groupStage docs)

/-- Start date hard-coded in the script's `__main__` entry point. -/
def main_start_date : String := "2024-10-01 00:00:00"

/-- End date hard-coded in the script's `__main__` entry point. -/
def main_end_date : String := "2024-12-31 23:59:59"

/-- Sort field passed by the script's `__main__` entry point. -/
def main_sort_by : String := "user_id"

/-- Sort order passed by the script's `__main__` entry point. -/
def main_order_by : String := "asc"

/-- A value held in a result-row dictionary written to the spreadsheet. -/
inductive CellVal
  | int (n : Int)
  | str (s : String)
deriving DecidableEq, Repr

/-- A result-row dictionary: keys in insertion order, as Python preserves. -/
def XlsxRow : Type := List (String × CellVal)

instance : DecidableEq XlsxRow := inferInstanceAs (DecidableEq (List (String × CellVal)))

/-- `record.keys()`: the key order of a row dictionary. -/
def dictKeys (r : XlsxRow) : List String := r.map Prod.fst

/-- `record[key]`, with `none` modelling the `KeyError` raised by Python
when the key is absent. -/
def dictGet (r : XlsxRow) (k : String) : Option CellVal :=
  (r.find? (fun p => p.1 == k)).map Prod.snd

/-- The cells of one spreadsheet row, written in header order; the first
missing key aborts the writer with a `KeyError` (`none`). -/
def rowCells (headers : List String) (r : XlsxRow) : Option (List CellVal) :=
  match headers with
  | [] => some []
  | k :: ks =>
    match dictGet r k, rowCells ks r with
    | some v, some vs => some (v :: vs)
    | _, _ => none

/-- The cells of all spreadsheet rows, row by row. -/
def sheetCells (headers : List String) : List XlsxRow → Option (List (List CellVal))
  | [] => some []
  | r :: rs =>
    match rowCells headers r, sheetCells headers rs with
    | some cs, some css => some (cs :: css)
    | _, _ => none

/-- The `xlsx` branch of `get_users`: headers are the first row's keys, each
subsequent sheet row holds the values of those keys in header order, and
`workbook.save` runs only after every cell is written — `none` therefore
means an exception escaped before any file reached disk, while `some`
carries the saved sheet contents. -/
def write_xlsx (users : List XlsxRow) : Option (List String × List (List CellVal)) :=
  match users with
  | [] => none
  | r0 :: _ =>
    (sheetCells (dictKeys r0) users).map (fun cells => (dictKeys r0, cells))

/-- Token ceiling shared by `outline_webpage` and `scrape_webpage`:
`32000 - 1500`. -/
def webpageTokenCeiling : Nat := 32000 - 1500

/-- `GPT_4_MINI_MAX_INPUT_TOKENS` from `tools/openai_helper.py`. -/
def GPT_4_MINI_MAX_INPUT_TOKENS : Nat := 128000

/-- The `try:` body of `OpenAIHelper.outline_webpage`: counts tokens
(`num_tokens` abstracts the tiktoken tokenizer), raises `ValueError` at or
above the ceiling before any request is made, and otherwise issues the chat
completion (`complete` abstracts the request together with its link-rewriting
postprocessing). -/
def outline_webpage_try (num_tokens : String → Nat) (complete : String → String → String)
    (content website_url : String) : Except String String :=
  if num_tokens content ≥ 32000 - 1500 then
    Except.error ("Content too long, tokens found " ++ toString (num_tokens content))
  else
    Except.ok (complete content website_url)

/-- `OpenAIHelper.outline_webpage`: the surrounding `except` catches every
exception and returns the empty string. -/
def outline_webpage (num_tokens : String → Nat) (complete : String → String → String)
    (content website_url : String) : String :=
  match outline_webpage_try num_tokens complete content website_url with
  | Except.ok outline => outline
  | Except.error _ => ""

/-- The `try:` body of `OpenAIHelper.scrape_webpage`, with the same ceiling
and a URL-bearing error message. -/
def scrape_webpage_try (num_tokens : String → Nat) (complete : String → String → String)
    (content website_url : String) : Except String String :=
  if num_tokens content ≥ 32000 - 1500 then
    Except.error ("Content too long for " ++ website_url ++ ", tokens found " ++
      toString (num_tokens content))
  else
    Except.ok (complete content website_url)

/-- `OpenAIHelper.scrape_webpage`: catches every exception and returns the
empty string. -/
def scrape_webpage (num_tokens : String → Nat) (complete : String → String → String)
    (content website_url : String) : String :=
  match scrape_webpage_try num_tokens complete content website_url with
  | Except.ok scraped_content => scraped_content
  | Except.error _ => ""

/-- The input `OpenAIHelper.generate_questions` hands to the language model:
oversized text is silently truncated to the first
`GPT_4_MINI_MAX_INPUT_TOKENS` characters instead of being rejected. -/
def generate_questions_input (num_tokens : String → Nat) (text : String) : String :=
  if num_tokens text ≥ GPT_4_MINI_MAX_INPUT_TOKENS then
    ⟨text.data.take GPT_4_MINI_MAX_INPUT_TOKENS⟩
  else text

/-- `OpenAIHelper.generate_questions`: truncates, then always issues the
request (`complete` abstracts the call and its postprocessing). -/
def generate_questions (num_tokens : String → Nat) (complete : String → String)
    (text : String) : String :=
  complete (generate_questions_input num_tokens text)

/-- C1: With the entry point's bounds, `format_datetime` reduces both bounds
to date-only strings, and the `$match` stage then rejects a record whose
localized timestamp lies on the end calendar date `2024-12-31` (at noon),
because `"2024-12-31 12:00:00"` compares lexicographically greater than the
date-only bound `"2024-12-31"`: the claimed inclusive upper bound fails for
the entire end date. -/
theorem get_users_match_excludes_end_date :
  format_datetime main_start_date main_end_date = some ("2024-10-01", "2024-12-31")
  ∧ localizedDate "2024-12-31 12:00:00" = "2024-12-31"
  ∧ matchStage "2024-10-01" "2024-12-31" "2024-12-31 12:00:00" = false := by
  refine ⟨by decide, by decide, by decide⟩

/-- C2: When the `totalCount` facet holds zero entries, `get_users` returns
an empty page and total count 0 without indexing the absent first element. -/
theorem get_users_empty_total_count_guard (page : List Row) :
  unpackUsers (page, ([] : List Nat)) = ([], 0) := rfl

/-- C3: The total count unpacked from the `totalCount` facet equals the
number of rows in the `paginatedResults` facet (the paginated branch only
sorts), so the page length never exceeds the total count. -/
theorem get_users_total_count_eq_rows_length (sort_by order_by : String) (rows : List Row) :
  (unpackUsers (facetStage sort_by order_by rows)).2
      = (unpackUsers (facetStage sort_by order_by rows)).1.length
  ∧ (unpackUsers (facetStage sort_by order_by rows)).1.length
      ≤ (unpackUsers (facetStage sort_by order_by rows)).2 := by
  cases rows with
  | nil => exact ⟨rfl, Nat.le_refl 0⟩
  | cons r rs =>
    have hlen : (paginatedStage sort_by order_by (r :: rs)).length = (r :: rs).length :=
      List.length_insertionSort _ _
    have h2 : (unpackUsers (facetStage sort_by order_by (r :: rs))).2 = (r :: rs).length := rfl
    have h1 : (unpackUsers (facetStage sort_by order_by (r :: rs))).1
        = paginatedStage sort_by order_by (r :: rs) := rfl
    refine ⟨?_, ?_⟩
    · rw [h1, h2, hlen]
    · rw [h1, h2, hlen]

/-- The localized `created_at` computed by the first `$addFields` stage:
the store's `$dateToString` operator (abstracted as `dateToString`, taking
the instant and a timezone name) applied with the switched timezone. -/
def created_at_localized_of (dateToString : Nat → String → String)
    (created_at : Nat) (tz : String) : String :=
  dateToString created_at (timezoneSwitch tz)

/-- The localized `user.last_active_at` computed by the second `$addFields`
stage, switching on the chat record's stored timezone. -/
def last_active_at_localized_of (dateToString : Nat → String → String)
    (last_active_at : Nat) (tz : String) : String :=
  dateToString last_active_at (timezoneSwitch tz)

/-- C4: A record storing the alias `"Europe/Kyiv"` is localized — both its
`created_at` and the joined user's `last_active_at` — exactly as with
`"Europe/Kiev"`, a record storing `"America/Ciudad_Juarez"` exactly as with
`"America/Denver"`, and every other timezone name passes through the switch
unchanged. -/
theorem timezone_alias_remap (dateToString : Nat → String → String)
    (created_at last_active_at : Nat) (tz : String) :
  (tz = "Europe/Kyiv" →
    created_at_localized_of dateToString created_at tz = dateToString created_at "Europe/Kiev"
    ∧ last_active_at_localized_of dateToString last_active_at tz
        = dateToString last_active_at "Europe/Kiev")
  ∧ (tz = "America/Ciudad_Juarez" →
    created_at_localized_of dateToString created_at tz = dateToString created_at "America/Denver"
    ∧ last_active_at_localized_of dateToString last_active_at tz
        = dateToString last_active_at "America/Denver")
  ∧ (tz ≠ "Europe/Kyiv" → tz ≠ "America/Ciudad_Juarez" → timezoneSwitch tz = tz) := by
  refine ⟨?_, ?_, ?_⟩
  · intro h
    subst h
    exact ⟨rfl, rfl⟩
  · intro h
    subst h
    exact ⟨rfl, rfl⟩
  · intro h1 h2
    simp [timezoneSwitch, h1, h2]

/-- Witness for C4 at a concrete localization function, a record on the
Eastern-Europe alias and a record on an unaliased zone. -/
theorem timezone_alias_remap_witness :
  created_at_localized_of (fun n z => toString n ++ z) 5 "Europe/Kyiv"
      = (fun n z => toString n ++ z) 5 "Europe/Kiev"
  ∧ timezoneSwitch "UTC" = "UTC" :=
  ⟨((timezone_alias_remap (fun n z => toString n ++ z) 5 7 "Europe/Kyiv").1 rfl).1,
   (timezone_alias_remap (fun n z => toString n ++ z) 5 7 "UTC").2.2
     (by decide) (by decide)⟩

/-- A spreadsheet row fails exactly when some header key is absent from it. -/
lemma rowCells_eq_none_iff (headers : List String) (r : XlsxRow) :
  rowCells headers r = none ↔ ∃ k ∈ headers, dictGet r k = none := by
  induction headers with
  | nil => simp [rowCells]
  | cons k ks ih =>
    cases h1 : dictGet r k with
    | none => simp [rowCells, h1]
    | some v =>
      cases h2 : rowCells ks r with
      | none => simp [rowCells, h1, h2, ih.mp h2]
      | some vs =>
        have hne : ¬ ∃ k ∈ ks, dictGet r k = none := fun hex =>
          absurd (ih.mpr hex) (by simp [h2])
        simp [rowCells, h1, h2, hne]

/-- The sheet fails exactly when some row fails. -/
lemma sheetCells_eq_none_iff (headers : List String) (rows : List XlsxRow) :
  sheetCells headers rows = none ↔ ∃ r ∈ rows, rowCells headers r = none := by
  induction rows with
  | nil => simp [sheetCells]
  | cons r rs ih =>
    cases h1 : rowCells headers r with
    | none => simp [sheetCells, h1]
    | some cs =>
      cases h2 : sheetCells headers rs with
      | none => simp [sheetCells, h1, h2, ih.mp h2]
      | some css =>
        have hne : ¬ ∃ r ∈ rs, rowCells headers r = none := fun hex =>
          absurd (ih.mpr hex) (by simp [h2])
        simp [sheetCells, h1, h2, hne]

/-- C5 counterexample: two rows whose key sets differ — the second row
carries an extra `"name"` key — do not make the writer fail; the spreadsheet
is written, silently dropping the extra column. -/
theorem write_xlsx_extra_keys_no_error :
  dictKeys [("user_id", CellVal.int 1)]
      ≠ dictKeys [("user_id", CellVal.int 2), ("name", CellVal.str "b")]
  ∧ write_xlsx [[("user_id", CellVal.int 1)],
      [("user_id", CellVal.int 2), ("name", CellVal.str "b")]]
      = some (["user_id"], [[CellVal.int 1], [CellVal.int 2]]) := by
  refine ⟨by decide, by decide⟩

/-- C5 amended: the writer fails — with no file produced — exactly when some
row lacks a key taken from the first row's key order; rows with extra keys
beyond the first row's succeed, the extra columns silently dropped. -/
theorem write_xlsx_fails_iff_missing_first_row_key (r0 : XlsxRow) (rest : List XlsxRow) :
  write_xlsx (r0 :: rest) = none
    ↔ ∃ r ∈ r0 :: rest, ∃ k ∈ dictKeys r0, dictGet r k = none := by
  simp only [write_xlsx]
  rw [Option.map_eq_none']
  rw [sheetCells_eq_none_iff]
  constructor
  · rintro ⟨r, hr, hcells⟩
    exact ⟨r, hr, (rowCells_eq_none_iff (dictKeys r0) r).mp hcells⟩
  · rintro ⟨r, hr, hk⟩
    exact ⟨r, hr, (rowCells_eq_none_iff (dictKeys r0) r).mpr hk⟩

/-- Witness for the amended C5 at a concrete pair of rows: the second row
misses the first row's `"b"` key, so the writer fails. -/
theorem write_xlsx_fails_witness :
  write_xlsx [[("a", CellVal.int 1), ("b", CellVal.int 2)], [("a", CellVal.int 3)]] = none :=
  (write_xlsx_fails_iff_missing_first_row_key
      [("a", CellVal.int 1), ("b", CellVal.int 2)] [[("a", CellVal.int 3)]]).mpr
    ⟨[("a", CellVal.int 3)], by decide, "b", by decide, by decide⟩

/-- C6 counterexample: the FAQ-stripping normalizer does not return
`"bar baz"` on the spec's example input. -/
theorem remove_miscellaneous_text_faq_example_ne :
  ¬ remove_miscellaneous_text "Question: foo Answer: bar baz" = "bar baz" := by decide

/-- C6 amended: the 6-character offset past the `"Answer"` find index
discards exactly the marker `"Answer"` itself, so the colon and space that
follow it survive; after the whitespace strip the result is `": bar baz"`. -/
theorem remove_miscellaneous_text_faq_example :
  remove_miscellaneous_text "Question: foo Answer: bar baz" = ": bar baz" := by decide

/-- C7: A chat record whose `feedback_id` matches no feedback document is
preserved by the left join with an absent feedback field, and such a
document contributes exactly 0 to its group's `total_thumbs_up` and
`total_thumbs_down` sums — the sums stay well-defined integers. -/
theorem no_feedback_contributes_zero (feedback_collection : List Feedback)
    (feedback_id : Option Nat)
    (hno : ∀ fb ∈ feedback_collection, ¬ some fb._id = feedback_id)
    (d : GroupedDoc) (hd : d.feedback = none) (pre post : List GroupedDoc) :
  unwindFeedback (lookupFeedback feedback_collection feedback_id) = [none]
  ∧ sumThumbsUp (pre ++ d :: post) = sumThumbsUp (pre ++ post)
  ∧ sumThumbsDown (pre ++ d :: post) = sumThumbsDown (pre ++ post) := by
  refine ⟨?_, ?_, ?_⟩
  · cases feedback_id with
    | none => rfl
    | some fid =>
      have hfil : feedback_collection.filter (fun fb => fb._id == fid) = [] := by
        rw [List.filter_eq_nil_iff]
        intro fb hfb
        simpa using fun h => hno fb hfb (by simp [h])
      simp [lookupFeedback, hfil, unwindFeedback]
  · simp [sumThumbsUp, thumbsUpOf, hd]
  · simp [sumThumbsDown, thumbsDownOf, hd]

/-- Witness for C7: a feedback collection with one unrelated document, a
grouped document carrying no feedback, and singleton surroundings. -/
theorem no_feedback_contributes_zero_witness :
  unwindFeedback (lookupFeedback [⟨1, 2, 3⟩] (some 5)) = [none]
  ∧ sumThumbsUp ([] ++ ⟨7, "u", Citations.arr [], "2024-10-01", "", "", "UTC", none⟩ :: [])
      = sumThumbsUp ([] ++ [])
  ∧ sumThumbsDown ([] ++ ⟨7, "u", Citations.arr [], "2024-10-01", "", "", "UTC", none⟩ :: [])
      = sumThumbsDown ([] ++ []) :=
  no_feedback_contributes_zero [⟨1, 2, 3⟩] (some 5) (by decide)
    ⟨7, "u", Citations.arr [], "2024-10-01", "", "", "UTC", none⟩ rfl [] []

/-- C8: `total_visits` of a projected group equals the number of distinct
`"%Y-%m-%d"` date strings of the group's records — a natural number, 0 when
the distinct-date set is empty — and, concretely, a user with two records on
one calendar date and one on another gets `total_visits = 2`. -/
theorem total_visits_counts_distinct_dates :
  (∀ (key : Nat) (docs : List GroupedDoc),
    (projectRow (groupRow key docs)).total_visits
      = ((docs.map GroupedDoc.created_at_date).dedup).length)
  ∧ (pipelineRows
      [⟨7, "u", Citations.arr [], "2024-10-01", "", "", "UTC", none⟩,
       ⟨7, "u", Citations.arr [], "2024-10-01", "", "", "UTC", none⟩,
       ⟨7, "u", Citations.arr [], "2024-10-02", "", "", "UTC", none⟩]).map Row.total_visits
      = [2] := by
  refine ⟨?_, by decide⟩
  intro key docs
  simp only [projectRow, groupRow, dateSet]
  split
  · rfl
  · omega

/-- C9: At or above the `32000 - 1500` token ceiling, the `try:` bodies of
`outline_webpage` and `scrape_webpage` raise the content-too-long
`ValueError` before any chat completion is issued, the surrounding `except`
turns it into the empty string, and the result is independent of the
completion backend; `generate_questions`, by contrast, silently truncates
and always issues its request. -/
theorem webpage_token_ceiling_rejects (num_tokens : String → Nat)
    (complete complete2 : String → String → String) (content website_url : String)
    (h : num_tokens content ≥ 32000 - 1500) :
  outline_webpage_try num_tokens complete content website_url
      = Except.error ("Content too long, tokens found " ++ toString (num_tokens content))
  ∧ outline_webpage num_tokens complete content website_url = ""
  ∧ outline_webpage num_tokens complete content website_url
      = outline_webpage num_tokens complete2 content website_url
  ∧ scrape_webpage_try num_tokens complete content website_url
      = Except.error ("Content too long for " ++ website_url ++ ", tokens found "
          ++ toString (num_tokens content))
  ∧ scrape_webpage num_tokens complete content website_url = ""
  ∧ scrape_webpage num_tokens complete content website_url
      = scrape_webpage num_tokens complete2 content website_url
  ∧ (∀ (complete3 : String → String) (text : String),
      generate_questions num_tokens complete3 text
        = complete3 (generate_questions_input num_tokens text)) := by
  refine ⟨?_, ?_, ?_, ?_, ?_, ?_, fun _ _ => rfl⟩ <;>
    simp [outline_webpage, outline_webpage_try, scrape_webpage, scrape_webpage_try, h]

/-- Witness for C9 at a tokenizer reporting exactly the ceiling. -/
theorem webpage_token_ceiling_rejects_witness :
  (fun _ : String => 30500) "c" ≥ 32000 - 1500
  ∧ outline_webpage (fun _ => 30500) (fun _ _ => "a") "c" "u" = ""
  ∧ scrape_webpage (fun _ => 30500) (fun _ _ => "a") "c" "u" = "" :=
  ⟨by decide,
   (webpage_token_ceiling_rejects (fun _ => 30500) (fun _ _ => "a") (fun _ _ => "b")
     "c" "u" (by decide)).2.1,
   (webpage_token_ceiling_rejects (fun _ => 30500) (fun _ _ => "a") (fun _ _ => "b")
     "c" "u" (by decide)).2.2.2.2.1⟩

/-- C10: The sort direction is ascending (1) exactly for the uppercase
string `"ASC"`; the script's own entry point passes the lowercase `"asc"`,
which therefore yields a descending (-1) sort. -/
theorem sort_direction_asc_only_uppercase :
  (∀ order_by : String, sortDirection order_by = 1 ↔ order_by = "ASC")
  ∧ main_order_by = "asc"
  ∧ sortDirection main_order_by = -1 := by
  refine ⟨?_, rfl, by decide⟩
  intro s
  unfold sortDirection
  split
  · simp_all
  · simp_all

/-- Witness for C10 at both the uppercase and the shipped lowercase value. -/
theorem sort_direction_asc_only_uppercase_witness :
  sortDirection "ASC" = 1 ∧ sortDirection "asc" = -1 :=
  ⟨(sort_direction_asc_only_uppercase.1 "ASC").mpr rfl,
   sort_direction_asc_only_uppercase.2.2⟩
